import Mathlib

/-!
Verification of the battlemon Gen-III battle-engine core against its
specification.  The C++ sources under src/ are shallowly embedded as
executable Lean definitions: machine integers become Nat/Int (with explicit
truncation where a C++ narrowing cast matters), pointer-mutating ops become
state-passing functions on an explicit context record, and the global PCG32
generator becomes an explicit stream of draws (a List Nat consumed from the
front, each draw taken modulo the requested bound, matching the contract
rand_below(n) in [0, n)).
-/

namespace Battlemon

/-- Stream of RNG draws; Random(max) consumes the head modulo max.
Source: src/util/random.hpp (contract: uniform in [0, max)). -/
abbrev Rng := List Nat

/-- Embedding of util::random::Random(max): one draw from the stream.
The PRNG itself (PCG32) is external state; only its draw contract matters. -/
def Random (max : Nat) (r : Rng) : Nat × Rng :=
  (r.headD 0 % max, r.tail)

/-- Weather enum from src/src/logic/state/field.hpp. -/
inductive Weather where
  | NONE | SUN | RAIN | SANDSTORM | HAIL
deriving DecidableEq, Repr

/-- Primary status enum from src/src/logic/state/mon.hpp. -/
inductive Status where
  | NONE | SLEEP | POISON | BURN | FREEZE | PARALYSIS | TOXIC
deriving DecidableEq, Repr

/-- Stat enum from src/src/logic/ops/stats.hpp. -/
inductive Stat where
  | ATK | DEF | SPD | SP_ATK | SP_DEF | ACCURACY | EVASION
deriving DecidableEq, Repr

/-- Held-item ids that have handlers in src/src/dsl/item/handler.hpp;
OTHER stands for any id with no handler for any event (which the dispatcher
treats as a no-op). -/
inductive Item where
  | NONE | SCOPE_LENS | CHOICE_BAND | FOCUS_BAND | KINGS_ROCK
  | SHELL_BELL | LEFTOVERS | QUICK_CLAW | OTHER
deriving DecidableEq, Repr

/-- Battle outcome enum from src/src/engine/battle.hpp. -/
inductive BattleResult where
  | P1_WINS | P2_WINS | ONGOING
deriving DecidableEq, Repr

/-- Turn-order outcome from logic::calc (speed calc doc in
src/src/logic/calc/nature.hpp, third document). -/
inductive TurnOrder where
  | BATTLER1_FIRST | BATTLER2_FIRST | SPEED_TIE
deriving DecidableEq, Repr

/-- Action type from src/src/engine/battle.hpp BattleAction. -/
inductive ActionType where
  | MOVE | SWITCH | RUN
deriving DecidableEq, Repr

/-- BattleAction from src/src/engine/battle.hpp. -/
structure BattleAction where
  type : ActionType := .MOVE
  index : Nat := 0
deriving DecidableEq, Repr

namespace volatile_flags

/-- Volatile flag bit constants from src/src/logic/state/slot.hpp. -/
def CONFUSED : Nat := 1 <<< 0
def INFATUATED : Nat := 1 <<< 1
def FOCUS_ENERGY : Nat := 1 <<< 2
def SUBSTITUTE : Nat := 1 <<< 3
def LEECH_SEED : Nat := 1 <<< 4
def CURSED : Nat := 1 <<< 5
def NIGHTMARE : Nat := 1 <<< 6
def TRAPPED : Nat := 1 <<< 7
def WRAPPED : Nat := 1 <<< 8
def TORMENTED : Nat := 1 <<< 9
def DISABLED : Nat := 1 <<< 10
def TAUNTED : Nat := 1 <<< 11
def ENCORED : Nat := 1 <<< 12
def CHARGING : Nat := 1 <<< 13
def SEMI_INVULN : Nat := 1 <<< 14
def DESTINY_BOND : Nat := 1 <<< 15
def GRUDGE : Nat := 1 <<< 16
def INGRAINED : Nat := 1 <<< 17
def YAWN : Nat := 1 <<< 18
def PERISH_SONG : Nat := 1 <<< 19
def LOCK_ON : Nat := 1 <<< 20
def CHARGED : Nat := 1 <<< 21
def DEFENSE_CURL : Nat := 1 <<< 22
def RAGE : Nat := 1 <<< 23
def FORESIGHT : Nat := 1 <<< 24
def BIDE : Nat := 1 <<< 25
def UPROAR : Nat := 1 <<< 26
def TRANSFORMED : Nat := 1 <<< 27
def PROTECTED : Nat := 1 <<< 28
def ENDURED : Nat := 1 <<< 29
def FLINCHED : Nat := 1 <<< 30

/-- Mask of all 32 bits, used to model the C++ bitwise complement on a
uint32_t volatile set. -/
def ALL32 : Nat := 0xFFFFFFFF

end volatile_flags

/-- Per-battle-position state, from src/src/logic/state/slot.hpp.
Stat stages are the raw stored int8 values; the structure documents them as
stored 0..12 with 6 = neutral and default-initialises every stage to 6.
The held_item and item_consumed fields are read by the item dispatcher
(second document of src/src/dsl/item/handler.hpp). -/
structure SlotState where
  atk_stage : Int := 6
  def_stage : Int := 6
  spd_stage : Int := 6
  sp_atk_stage : Int := 6
  sp_def_stage : Int := 6
  accuracy_stage : Int := 6
  evasion_stage : Int := 6
  volatiles : Nat := 0
  confusion_turns : Nat := 0
  wrap_turns : Nat := 0
  taunt_turns : Nat := 0
  encore_turns : Nat := 0
  disable_turns : Nat := 0
  perish_count : Nat := 0
  stockpile_count : Nat := 0
  fury_cutter_power : Nat := 0
  rollout_hits : Nat := 0
  yawn_turns : Nat := 0
  substitute_hp : Nat := 0
  disabled_move : Nat := 0
  encored_move : Nat := 0
  last_move_used : Nat := 0
  charging_move : Nat := 0
  physical_damage_taken : Nat := 0
  special_damage_taken : Nat := 0
  physical_attacker : Nat := 0xFF
  special_attacker : Nat := 0xFF
  infatuated_with : Nat := 0xFF
  leech_seed_target : Nat := 0xFF
  trapped_by : Nat := 0xFF
  is_first_turn : Bool := true
  moved_this_turn : Bool := false
  bounce_move : Bool := false
  held_item : Item := .NONE
  item_consumed : Bool := false
deriving DecidableEq, Repr

namespace SlotState

/-- SlotState::has from slot.hpp. -/
def has (s : SlotState) (flag : Nat) : Bool := s.volatiles &&& flag ≠ 0

/-- SlotState::set from slot.hpp. -/
def set (s : SlotState) (flag : Nat) : SlotState :=
  { s with volatiles := s.volatiles ||| flag }

/-- SlotState::clear from slot.hpp; the uint32 complement of the flag is
ALL32 xor flag. -/
def clear (s : SlotState) (flag : Nat) : SlotState :=
  { s with volatiles := s.volatiles &&& (volatile_flags.ALL32 ^^^ flag) }

/-- SlotState::effective_stage from slot.hpp: raw stored value minus 6
gives the signed -6..+6 stage. -/
def effective_stage (_s : SlotState) (raw : Int) : Int := raw - 6

/-- SlotState::clear_turn_flags from slot.hpp. -/
def clear_turn_flags (s : SlotState) : SlotState :=
  let s := s.clear volatile_flags.PROTECTED
  let s := s.clear volatile_flags.ENDURED
  let s := s.clear volatile_flags.FLINCHED
  { s with
    physical_damage_taken := 0
    special_damage_taken := 0
    physical_attacker := 0xFF
    special_attacker := 0xFF
    moved_this_turn := false
    bounce_move := false }

end SlotState

/-- Per-pokemon state, from src/src/logic/state/mon.hpp. -/
structure MonState where
  current_hp : Nat := 0
  max_hp : Nat := 0
  status : Status := .NONE
  sleep_turns : Nat := 0
  toxic_counter : Nat := 1
  pp : List Nat := [0, 0, 0, 0]
deriving DecidableEq, Repr

namespace MonState

/-- MonState::is_fainted from mon.hpp. -/
def is_fainted (m : MonState) : Bool := m.current_hp = 0

/-- MonState::has_status from mon.hpp. -/
def has_status (m : MonState) : Bool := m.status ≠ .NONE

/-- MonState::apply_damage from mon.hpp: clamps at zero. -/
def apply_damage (m : MonState) (damage : Nat) : MonState :=
  if damage ≥ m.current_hp then { m with current_hp := 0 }
  else { m with current_hp := m.current_hp - damage }

/-- MonState::heal from mon.hpp: clamps at max_hp. -/
def heal (m : MonState) (amount : Nat) : MonState :=
  let missing := m.max_hp - m.current_hp
  let healed := if amount < missing then amount else missing
  { m with current_hp := m.current_hp + healed }

end MonState

/-- Per-team state, from the side-state document in
src/src/logic/state/mon.hpp (SideState). -/
structure SideState where
  reflect_turns : Nat := 0
  light_screen_turns : Nat := 0
  safeguard_turns : Nat := 0
  mist_turns : Nat := 0
  spikes_layers : Nat := 0
  follow_me_target : Nat := 0xFF
deriving DecidableEq, Repr

/-- Global field state, from src/src/logic/state/field.hpp.  The
future-sight and wish slot arrays (four counters each) are carried as
lists so the record stays decidably comparable. -/
structure FieldState where
  weather : Weather := .NONE
  weather_turns : Nat := 0
  future_sight_counter : List Nat := [0, 0, 0, 0]
  wish_counter : List Nat := [0, 0, 0, 0]
deriving DecidableEq, Repr

/-- Result of effect execution, from the context document in
src/unnamed/part_010 (the EffectResult carrying the switch-out and
baton-pass request flags that ops such as RequestBatonPass write). -/
structure EffectResult where
  missed : Bool := false
  damage : Nat := 0
  effectiveness : Nat := 0x100
  critical : Bool := false
  status_applied : Bool := false
  failed : Bool := false
  switch_out : Bool := false
  baton_pass : Bool := false
  pursuit_intercept : Bool := false
  pursuit_user_slot : Nat := 0xFF
deriving DecidableEq, Repr

/-- Computed active-mon stats, from src/unnamed/part_010. -/
structure ActiveMon where
  level : Nat := 50
  attack : Nat := 100
  defense : Nat := 100
  sp_attack : Nat := 100
  sp_defense : Nat := 100
  speed : Nat := 100
deriving DecidableEq, Repr

/-- Damage calculation overrides, from src/unnamed/part_010. -/
structure DamageOverride where
  power : Nat := 0
  attack : Nat := 0
  defense : Nat := 0
deriving DecidableEq, Repr

/-- Move data record, from src/src/types/models/move.hpp.  The move id is
kept as a bare Nat; the type, target and flag fields are not read by any
op embedded here and are omitted. -/
structure Move where
  id : Nat := 0
  power : Nat := 0
  accuracy : Nat := 100
  pp : Nat := 0
  priority : Int := 0
  effect : Nat := 0
  effect_chance : Nat := 0
deriving DecidableEq, Repr

/-- Battle context, from src/unnamed/part_010.  The C++ record holds raw
pointers into engine-owned state; the embedding owns one copy of each
pointed-to object and the engine functions copy them in and out exactly
where the C++ re-aims the pointers. -/
structure Ctx where
  field : FieldState := {}
  attacker_side : SideState := {}
  defender_side : SideState := {}
  attacker_slot : SlotState := {}
  defender_slot : SlotState := {}
  attacker_mon : MonState := {}
  defender_mon : MonState := {}
  attacker_active : ActiveMon := {}
  defender_active : ActiveMon := {}
  move : Move := {}
  attacker_slot_id : Nat := 0
  defender_slot_id : Nat := 1
  result : EffectResult := {}
  override : DamageOverride := {}
  loop_iteration : Nat := 0
deriving DecidableEq, Repr

namespace Ctx

/-- BattleContext::defender_has_substitute from part_010. -/
def defender_has_substitute (c : Ctx) : Bool := c.defender_slot.substitute_hp > 0

end Ctx

namespace Calc

/-- Stat-stage ratio table from src/src/logic/calc/stat_stages.hpp:
index 0 is stage -6 (10/40 = 0.25x), index 6 neutral (10/10), index 12
stage +6 (40/10 = 4.0x). -/
def STAT_STAGE_RATIOS : List (Nat × Nat) :=
  [(10, 40), (10, 35), (10, 30), (10, 25), (10, 20), (10, 15),
   (10, 10),
   (15, 10), (20, 10), (25, 10), (30, 10), (35, 10), (40, 10)]

/-- Embedding of logic::calc::apply_stat_stage (stat_stages.hpp, 0..12
convention): widen, multiply by the numerator, divide by the denominator,
truncate back to the uint16 StatValue.  The source asserts stage <= 12;
out-of-range indices fall back to the neutral pair here. -/
def apply_stat_stage (base_stat : Nat) (stage : Nat) : Nat :=
  let r := STAT_STAGE_RATIOS.getD stage (10, 10)
  (base_stat * r.1 / r.2) % 65536

/-- Accuracy-stage numerators from the accuracy document in
src/src/logic/calc/stats.hpp (index = stage + 6). -/
def ACC_STAGE_NUMERATORS : List Nat := [3, 3, 3, 3, 3, 3, 3, 4, 5, 6, 7, 8, 9]

/-- Accuracy-stage denominators from the same table. -/
def ACC_STAGE_DENOMINATORS : List Nat := [9, 8, 7, 6, 5, 4, 3, 3, 3, 3, 3, 3, 3]

/-- Embedding of acc_stage_to_index: clamp the signed stage to [-6, 6] and
shift to 0..12. -/
def acc_stage_to_index (stage : Int) : Nat :=
  let stage := if stage < -6 then -6 else stage
  let stage := if stage > 6 then 6 else stage
  (stage + 6).toNat

/-- Embedding of calc_effective_accuracy from the accuracy document in
src/src/logic/calc/stats.hpp: base accuracy 0 means never-miss (return
100); otherwise multiply by the attacker accuracy-stage ratio, then by the
inverse of the defender evasion-stage ratio, both skipped when the stage
is zero, and cap the result at 100.  All arithmetic is the widened uint32
sequence of the source. -/
def calc_effective_accuracy (base_accuracy : Nat) (acc_stage eva_stage : Int) : Nat :=
  if base_accuracy = 0 then 100
  else
    let accuracy := base_accuracy
    let accuracy :=
      if acc_stage ≠ 0 then
        let idx := acc_stage_to_index acc_stage
        accuracy * ACC_STAGE_NUMERATORS.getD idx 3 / ACC_STAGE_DENOMINATORS.getD idx 3
      else accuracy
    let accuracy :=
      if eva_stage ≠ 0 then
        let idx := acc_stage_to_index eva_stage
        accuracy * ACC_STAGE_DENOMINATORS.getD idx 3 / ACC_STAGE_NUMERATORS.getD idx 3
      else accuracy
    if accuracy > 100 then 100 else accuracy

/-- Embedding of roll_accuracy: one uniform draw in [0, 100) is consumed in
both branches; an effective accuracy of 100 or more always hits. -/
def roll_accuracy (effective_accuracy : Nat) (r : Rng) : Bool × Rng :=
  if effective_accuracy ≥ 100 then
    let (_, r) := Random 100 r
    (true, r)
  else
    let (roll, r) := Random 100 r
    (roll < effective_accuracy, r)

/-- Embedding of check_accuracy: never-miss moves (base accuracy 0) hit
without consuming RNG; otherwise compute the effective accuracy and roll. -/
def check_accuracy (base_accuracy : Nat) (acc_stage eva_stage : Int) (r : Rng) :
    Bool × Rng :=
  if base_accuracy = 0 then (true, r)
  else roll_accuracy (calc_effective_accuracy base_accuracy acc_stage eva_stage) r

/-- Embedding of calc_effective_speed (speed document in
src/src/logic/calc/nature.hpp): stage multiplier then quartering under
paralysis.  The C++ casts the stored int8 stage to the unsigned StatStage
index; Int.emod 256 reproduces that cast. -/
def calc_effective_speed (base_speed : Nat) (speed_stage : Int) (status : Status) :
    Nat :=
  let speed := apply_stat_stage base_speed ((speed_stage % 256).toNat)
  if status = .PARALYSIS then speed / 4 else speed

/-- Embedding of determine_turn_order (speed document in
src/src/logic/calc/nature.hpp): priority bracket first, then effective
speed, ties reported for the caller to randomise. -/
def determine_turn_order (priority1 priority2 : Int) (speed1 speed2 : Nat) :
    TurnOrder :=
  if priority1 ≠ priority2 then
    if priority1 > priority2 then .BATTLER1_FIRST else .BATTLER2_FIRST
  else if speed1 > speed2 then .BATTLER1_FIRST
  else if speed2 > speed1 then .BATTLER2_FIRST
  else .SPEED_TIE

end Calc

namespace ops

/-- Helper get_stage from src/src/logic/ops/stats.hpp detail namespace. -/
def get_stage (slot : SlotState) (stat : Stat) : Int :=
  match stat with
  | .ATK => slot.atk_stage
  | .DEF => slot.def_stage
  | .SPD => slot.spd_stage
  | .SP_ATK => slot.sp_atk_stage
  | .SP_DEF => slot.sp_def_stage
  | .ACCURACY => slot.accuracy_stage
  | .EVASION => slot.evasion_stage

/-- Writing counterpart of get_stage: the C++ helper returns a mutable
reference, so assignment through it becomes this functional update. -/
def set_stage (slot : SlotState) (stat : Stat) (v : Int) : SlotState :=
  match stat with
  | .ATK => { slot with atk_stage := v }
  | .DEF => { slot with def_stage := v }
  | .SPD => { slot with spd_stage := v }
  | .SP_ATK => { slot with sp_atk_stage := v }
  | .SP_DEF => { slot with sp_def_stage := v }
  | .ACCURACY => { slot with accuracy_stage := v }
  | .EVASION => { slot with evasion_stage := v }

/-- Embedding of ModifyUserStat<S, Stages>::execute from
src/src/logic/ops/stats.hpp: add the delta to the attacker-slot stage,
clamp to [-6, +6], and flag failure when nothing changed. -/
def ModifyUserStat (S : Stat) (Stages : Int) (ctx : Ctx) : Ctx :=
  let stage := get_stage ctx.attacker_slot S
  let new_stage := stage + Stages
  let new_stage := if new_stage < -6 then -6 else new_stage
  let new_stage := if new_stage > 6 then 6 else new_stage
  if new_stage = stage then
    { ctx with result := { ctx.result with failed := true } }
  else
    { ctx with attacker_slot := set_stage ctx.attacker_slot S new_stage }

/-- Embedding of ModifyDefenderStat<S, Stages>::execute from
src/src/logic/ops/stats.hpp. -/
def ModifyDefenderStat (S : Stat) (Stages : Int) (ctx : Ctx) : Ctx :=
  let stage := get_stage ctx.defender_slot S
  let new_stage := stage + Stages
  let new_stage := if new_stage < -6 then -6 else new_stage
  let new_stage := if new_stage > 6 then 6 else new_stage
  if new_stage = stage then
    { ctx with result := { ctx.result with failed := true } }
  else
    { ctx with defender_slot := set_stage ctx.defender_slot S new_stage }

/-- Embedding of TryModifyDefenderStat<S, Stages>::execute from
src/src/logic/ops/stats.hpp.  The chance roll is an unimplemented TODO in
the source (the comment says: for smoke testing, always apply), so the op
never consumes RNG: the stream is passed through untouched, and the stage
change happens whenever chance is non-zero and the move did not miss. -/
def TryModifyDefenderStat (S : Stat) (Stages : Int) (chance : Nat) (ctx : Ctx)
    (r : Rng) : Ctx × Rng :=
  if ctx.result.missed then (ctx, r)
  else if chance = 0 then (ctx, r)
  else
    let stage := get_stage ctx.defender_slot S
    let new_stage := stage + Stages
    let new_stage := if new_stage < -6 then -6 else new_stage
    let new_stage := if new_stage > 6 then 6 else new_stage
    ({ ctx with defender_slot := set_stage ctx.defender_slot S new_stage }, r)

/-- Helper reset_slot of ResetAllStats from src/src/logic/ops/stats.hpp:
write the literal value 0 into all seven stage fields. -/
def reset_slot (slot : SlotState) : SlotState :=
  { slot with
    atk_stage := 0
    def_stage := 0
    spd_stage := 0
    sp_atk_stage := 0
    sp_def_stage := 0
    accuracy_stage := 0
    evasion_stage := 0 }

/-- Embedding of ResetAllStats::execute from src/src/logic/ops/stats.hpp:
reset the attacker slot and the defender slot (the two active slots in a
singles battle). -/
def ResetAllStats (ctx : Ctx) : Ctx :=
  { ctx with
    attacker_slot := reset_slot ctx.attacker_slot
    defender_slot := reset_slot ctx.defender_slot }

/-- Embedding of TryApplyStatus<S>::execute from
src/src/logic/ops/status.hpp.  The percentage roll is an unimplemented
TODO in the source (for smoke testing it always applies when chance > 0),
so no RNG is consumed; a missed move or an already-statused defender is
left untouched.  Sleep fixes sleep_turns to 3 (another TODO in source). -/
def TryApplyStatus (S : Status) (chance : Nat) (ctx : Ctx) (r : Rng) : Ctx × Rng :=
  if ctx.result.missed then (ctx, r)
  else if ctx.defender_mon.has_status then (ctx, r)
  else if chance > 0 then
    let mon := { ctx.defender_mon with status := S }
    let mon := if S = .SLEEP then { mon with sleep_turns := 3 } else mon
    ({ ctx with
        defender_mon := mon
        result := { ctx.result with status_applied := true } }, r)
  else (ctx, r)

/-- Embedding of ApplyStatusMove<S>::execute from
src/src/logic/ops/status.hpp: pure status move, fails when the defender
already has a primary status. -/
def ApplyStatusMove (S : Status) (ctx : Ctx) : Ctx :=
  if ctx.defender_mon.has_status then
    { ctx with result := { ctx.result with failed := true } }
  else
    let mon := { ctx.defender_mon with status := S }
    let mon := if S = .SLEEP then { mon with sleep_turns := 3 } else mon
    { ctx with
      defender_mon := mon
      result := { ctx.result with status_applied := true } }

/-- Embedding of SetWeather<W>::execute from src/unnamed/part_009: fail
without touching the field when the weather is already W, otherwise set it
with the standard five-turn duration. -/
def SetWeather (W : Weather) (ctx : Ctx) : Ctx :=
  if ctx.field.weather = W then
    { ctx with result := { ctx.result with failed := true } }
  else
    { ctx with field := { ctx.field with weather := W, weather_turns := 5 } }

/-- Embedding of RequestBatonPass::execute from the switch-request
document in src/src/logic/calc/stats.hpp: raise both switch flags. -/
def RequestBatonPass (ctx : Ctx) : Ctx :=
  { ctx with result := { ctx.result with baton_pass := true, switch_out := true } }

/-- Embedding of dsl::item::fire_pre_damage_apply (item dispatch document
in src/src/dsl/item/handler.hpp): consult the defender-slot held item; a
NONE or consumed item is a no-op; the only OnPreDamageApply handler is
Focus Band, which on a would-be-fatal hit rolls Random(100) and on a roll
below 12 clamps the damage to defender_hp - 1 (a uint16 subtraction) and
marks survival.  Returns (damage, survived_fatal, rng). -/
def fire_pre_damage_apply (ctx : Ctx) (damage defender_hp : Nat) (r : Rng) :
    Nat × Bool × Rng :=
  let item := ctx.defender_slot.held_item
  if item = .NONE then (damage, false, r)
  else if ctx.defender_slot.item_consumed then (damage, false, r)
  else
    match item with
    | .FOCUS_BAND =>
      if damage ≥ defender_hp then
        let (roll, r) := Random 100 r
        if roll < 12 then ((defender_hp + 65535) % 65536, true, r)
        else (damage, false, r)
      else (damage, false, r)
    | _ => (damage, false, r)

/-- Embedding of ApplyDamage::execute from src/src/logic/ops/damage.hpp.
A missed move or zero damage is a no-op.  With a substitute up, damage is
taken from substitute_hp; when it covers the whole substitute the
SUBSTITUTE volatile is cleared and the remainder is discarded, and the
pre-damage-apply item hook is never reached.  Without a substitute the
hook fires (Focus Band may shrink the damage), the possibly-modified
damage is written back to the result and committed to the defender mon.
The extra returned Bool records whether the hook call site was reached. -/
def ApplyDamage (ctx : Ctx) (r : Rng) : Ctx × Rng × Bool :=
  if ctx.result.missed || ctx.result.damage = 0 then (ctx, r, false)
  else
    let damage := ctx.result.damage
    if ctx.defender_has_substitute then
      let sub_hp := ctx.defender_slot.substitute_hp
      if damage ≥ sub_hp then
        let slot := { ctx.defender_slot with substitute_hp := 0 }
        let slot := slot.clear volatile_flags.SUBSTITUTE
        ({ ctx with defender_slot := slot }, r, false)
      else
        ({ ctx with
            defender_slot :=
              { ctx.defender_slot with substitute_hp := sub_hp - damage } },
         r, false)
    else
      let defender_hp := ctx.defender_mon.current_hp
      let (damage, _survived_fatal, r) := fire_pre_damage_apply ctx damage defender_hp r
      let ctx := { ctx with result := { ctx.result with damage := damage } }
      let ctx := { ctx with defender_mon := ctx.defender_mon.apply_damage damage }
      (ctx, r, true)

end ops

namespace engine

/-- Rental descriptor; only the four move ids are read by the embedded
engine code (the species, nature, EV-spread and ability fields feed the
setup path, which is not needed by any claim). -/
structure Rental where
  moves : List Nat := [0, 0, 0, 0]
deriving DecidableEq, Repr

/-- Move lookup: BattleEngine::lookup_move indexes the static
data::g_MOVE_TABLE, which lives in a data file outside src/; the table is
therefore a parameter of every engine function. -/
abbrev MoveTable := Nat → Move

/-- Effect dispatch: dispatch_move_effect (src/unnamed/part_001) maps an
effect tag to its routine.  The engine functions take the dispatcher as a
parameter so theorems quantify over it; concrete instantiations below use
the routines embedded from the source. -/
abbrev Dispatch := Nat → Ctx → Rng → Ctx × Rng

/-- BattleEngine state from src/src/engine/battle.hpp: the two rental
setups (mon + slot + active view), field, sides, the engine-owned context
scratch (result and override persist between moves), and the RNG stream
standing in for the global PRNG. -/
structure Engine where
  p1_mon : MonState := {}
  p2_mon : MonState := {}
  p1_slot : SlotState := {}
  p2_slot : SlotState := {}
  p1_active : ActiveMon := {}
  p2_active : ActiveMon := {}
  p1_side : SideState := {}
  p2_side : SideState := {}
  field : FieldState := {}
  p1_rental : Rental := {}
  p2_rental : Rental := {}
  ctx_result : EffectResult := {}
  ctx_override : DamageOverride := {}
  rng : Rng := []
deriving DecidableEq, Repr

namespace Engine

/-- BattleEngine::get_mon from battle.hpp: slot 0 is p1, anything else p2. -/
def get_mon (e : Engine) (slot : Nat) : MonState :=
  if slot = 0 then e.p1_mon else e.p2_mon

/-- BattleEngine::get_slot from battle.hpp. -/
def get_slot (e : Engine) (slot : Nat) : SlotState :=
  if slot = 0 then e.p1_slot else e.p2_slot

/-- Functional update counterpart of get_slot. -/
def set_slot (e : Engine) (slot : Nat) (s : SlotState) : Engine :=
  if slot = 0 then { e with p1_slot := s } else { e with p2_slot := s }

/-- BattleEngine::get_rental from battle.hpp. -/
def get_rental (e : Engine) (slot : Nat) : Rental :=
  if slot = 0 then e.p1_rental else e.p2_rental

/-- BattleEngine::result from src/src/engine/battle.hpp lines 107-113:
a fainted p1 mon reports P2_WINS before the p2 mon is even examined; a
fainted p2 mon (with p1 alive) reports P1_WINS; otherwise ONGOING. -/
def result (e : Engine) : BattleResult :=
  if e.p1_mon.is_fainted then .P2_WINS
  else if e.p2_mon.is_fainted then .P1_WINS
  else .ONGOING

/-- BattleEngine::get_action_priority from src/src/engine/battle.cpp lines
140-148: a MOVE action reads the priority of the selected move from the
move table; SWITCH and RUN actions get priority 0 (the source comment
notes this simplification). -/
def get_action_priority (mt : MoveTable) (e : Engine) (action : BattleAction)
    (slot : Nat) : Int :=
  if action.type = .MOVE then
    (mt ((get_rental e slot).moves.getD action.index 0)).priority
  else 0

/-- BattleEngine::set_attacker from battle.cpp, expressed as building the
context record from the engine state for the given actor slot. -/
def make_ctx (e : Engine) (actor : Nat) : Ctx :=
  if actor = 0 then
    { field := e.field
      attacker_side := e.p1_side, defender_side := e.p2_side
      attacker_slot := e.p1_slot, defender_slot := e.p2_slot
      attacker_mon := e.p1_mon, defender_mon := e.p2_mon
      attacker_active := e.p1_active, defender_active := e.p2_active
      attacker_slot_id := 0, defender_slot_id := 1
      result := e.ctx_result, override := e.ctx_override }
  else
    { field := e.field
      attacker_side := e.p2_side, defender_side := e.p1_side
      attacker_slot := e.p2_slot, defender_slot := e.p1_slot
      attacker_mon := e.p2_mon, defender_mon := e.p1_mon
      attacker_active := e.p2_active, defender_active := e.p1_active
      attacker_slot_id := 1, defender_slot_id := 0
      result := e.ctx_result, override := e.ctx_override }

/-- Write the context back into the engine after an effect ran; this is
the inverse of the pointer aiming in set_attacker. -/
def write_back (e : Engine) (actor : Nat) (ctx : Ctx) : Engine :=
  if actor = 0 then
    { e with
      field := ctx.field
      p1_side := ctx.attacker_side, p2_side := ctx.defender_side
      p1_slot := ctx.attacker_slot, p2_slot := ctx.defender_slot
      p1_mon := ctx.attacker_mon, p2_mon := ctx.defender_mon
      ctx_result := ctx.result, ctx_override := ctx.override }
  else
    { e with
      field := ctx.field
      p2_side := ctx.attacker_side, p1_side := ctx.defender_side
      p2_slot := ctx.attacker_slot, p1_slot := ctx.defender_slot
      p2_mon := ctx.attacker_mon, p1_mon := ctx.defender_mon
      ctx_result := ctx.result, ctx_override := ctx.override }

/-- BattleEngine::execute_move from battle.cpp lines 161-177: aim the
context at the actor, look the move up, zero the result and override
scratches, dispatch the effect, then mark the actor slot as having moved
and record the move id (a uint8 in the slot, hence the mod 256). -/
def execute_move (mt : MoveTable) (d : Dispatch) (e : Engine) (actor : Nat)
    (move_index : Nat) : Engine :=
  let move_id := (get_rental e actor).moves.getD move_index 0
  let move := mt move_id
  let ctx := make_ctx e actor
  let ctx := { ctx with move := move, result := {}, override := {} }
  let (ctx, r) := d move.effect ctx e.rng
  let e := write_back { e with rng := r } actor ctx
  let slot := get_slot e actor
  let slot := { slot with moved_this_turn := true, last_move_used := move_id % 256 }
  set_slot e actor slot

/-- BattleEngine::execute_action from battle.cpp lines 154-159: only MOVE
actions are handled (SWITCH and RUN are a TODO in the source). -/
def execute_action (mt : MoveTable) (d : Dispatch) (e : Engine) (actor : Nat)
    (action : BattleAction) : Engine :=
  if action.type = .MOVE then execute_move mt d e actor action.index else e

end Engine

/-- Embedding of dsl::turn::fire_turn_start_for_slot together with
dsl::item::fire_turn_start (item dispatch document in handler.hpp): a NONE
or consumed held item does nothing; the only OnTurnStart handler is Quick
Claw, whose roll Random(5) == 0 raises the priority-boost flag. -/
def fire_turn_start_for_slot (slot : SlotState) (priority_boost : Bool) (r : Rng) :
    Bool × Rng :=
  if slot.held_item = .NONE then (priority_boost, r)
  else if slot.item_consumed then (priority_boost, r)
  else
    match slot.held_item with
    | .QUICK_CLAW =>
      let (roll, r) := Random 5 r
      (priority_boost || (roll = 0), r)
    | _ => (priority_boost, r)

/-- Embedding of dsl::turn::fire_turn_end_for_slot (src/unnamed/part_011)
with the OnTurnEnd item dispatch.  Modelled from the spec for the
Leftovers handler body, which the source declares but defines in a .cpp
file that is not under src/: per spec section 4.6 Leftovers sets a
positive heal amount at turn end; the wrapper in part_011 then heals
max_hp / 16 (minimum 1) on a non-fainted holder.  No other embedded item
handles OnTurnEnd. -/
def fire_turn_end_for_slot (slot : SlotState) (mon : MonState) : MonState :=
  if mon.is_fainted then mon
  else
    let heal_amount : Nat :=
      if slot.held_item = .LEFTOVERS && !slot.item_consumed then 1 else 0
    if heal_amount > 0 then
      let actual_heal := if mon.max_hp / 16 = 0 then 1 else mon.max_hp / 16
      mon.heal actual_heal
    else mon

namespace Engine

/-- Ordered pair of actors produced by determine_order. -/
structure OrderOut where
  first_slot : Nat
  second_slot : Nat
  first_action : BattleAction
  second_action : BattleAction
  rng : Rng
deriving DecidableEq, Repr

/-- BattleEngine::determine_order from src/src/engine/battle.cpp lines
91-138: compute both action priorities and effective speeds; when the
priorities differ, or when the quick-claw flags do not single out exactly
one side, fall through to the ordinary priority/speed comparison; a
reported speed tie is settled by one Random(2) coin flip. -/
def determine_order (mt : MoveTable) (e : Engine) (p1_action p2_action : BattleAction)
    (p1_quick_claw p2_quick_claw : Bool) (r : Rng) : OrderOut :=
  let p1_priority := get_action_priority mt e p1_action 0
  let p2_priority := get_action_priority mt e p2_action 1
  let p1_speed :=
    Calc.calc_effective_speed e.p1_active.speed e.p1_slot.spd_stage e.p1_mon.status
  let p2_speed :=
    Calc.calc_effective_speed e.p2_active.speed e.p2_slot.spd_stage e.p2_mon.status
  let order :=
    if p1_priority ≠ p2_priority then
      Calc.determine_turn_order p1_priority p2_priority p1_speed p2_speed
    else if p1_quick_claw && !p2_quick_claw then .BATTLER1_FIRST
    else if p2_quick_claw && !p1_quick_claw then .BATTLER2_FIRST
    else Calc.determine_turn_order p1_priority p2_priority p1_speed p2_speed
  let (order, r) :=
    if order = .SPEED_TIE then
      let (flip, r) := Random 2 r
      ((if flip = 0 then TurnOrder.BATTLER1_FIRST else TurnOrder.BATTLER2_FIRST), r)
    else (order, r)
  if order = .BATTLER1_FIRST then
    { first_slot := 0, second_slot := 1
      first_action := p1_action, second_action := p2_action, rng := r }
  else
    { first_slot := 1, second_slot := 0
      first_action := p2_action, second_action := p1_action, rng := r }

/-- First half of BattleEngine::execute_turn (battle.cpp lines 41-67):
clear per-turn flags, fire the two turn-start item hooks collecting the
quick-claw flags, determine the order, and run the first action.  Returns
the engine after the first action plus the chosen slots and the pending
second action. -/
def turn_after_first (mt : MoveTable) (d : Dispatch) (e : Engine)
    (p1_action p2_action : BattleAction) : Engine × Nat × Nat × BattleAction :=
  let e := { e with
    p1_slot := e.p1_slot.clear_turn_flags
    p2_slot := e.p2_slot.clear_turn_flags }
  let (p1_quick_claw, r) := fire_turn_start_for_slot e.p1_slot false e.rng
  let (p2_quick_claw, r) := fire_turn_start_for_slot e.p2_slot false r
  let o := determine_order mt e p1_action p2_action p1_quick_claw p2_quick_claw r
  let e := { e with rng := o.rng }
  let e := execute_action mt d e o.first_slot o.first_action
  (e, o.first_slot, o.second_slot, o.second_action)

/-- Outcome of execute_turn plus bookkeeping for the theorems: the engine
state, the two ordered slots, a copy of the effect result left by the
first action, and whether the second action was dispatched. -/
structure TurnOut where
  eng : Engine
  first_slot : Nat
  second_slot : Nat
  first_result : EffectResult
  second_dispatched : Bool
deriving DecidableEq, Repr

/-- BattleEngine::execute_turn from src/src/engine/battle.cpp lines
41-85: after the first action the second action runs unless the second
actor mon has fainted (that faint check is the only guard in the source);
then each still-alive side fires its end-of-turn item hook. -/
def execute_turn (mt : MoveTable) (d : Dispatch) (e : Engine)
    (p1_action p2_action : BattleAction) : TurnOut :=
  let (e1, first_slot, second_slot, second_action) :=
    turn_after_first mt d e p1_action p2_action
  let first_result := e1.ctx_result
  let second_dispatched := !(get_mon e1 second_slot).is_fainted
  let e2 :=
    if (get_mon e1 second_slot).is_fainted then e1
    else execute_action mt d e1 second_slot second_action
  let e3 :=
    if e2.p1_mon.is_fainted then e2
    else { e2 with p1_mon := fire_turn_end_for_slot e2.p1_slot e2.p1_mon }
  let e4 :=
    if e3.p2_mon.is_fainted then e3
    else { e3 with p2_mon := fire_turn_end_for_slot e3.p2_slot e3.p2_mon }
  { eng := e4, first_slot := first_slot, second_slot := second_slot
    first_result := first_result, second_dispatched := second_dispatched }

end Engine

end engine

-- ===========================================================================
-- Shared helper lemmas
-- ===========================================================================

/-- Reading back a stage just written through the get_stage reference. -/
theorem get_stage_set_stage (slot : SlotState) (S : Stat) (v : Int) :
    ops.get_stage (ops.set_stage slot S v) S = v := by
  cases S <;> rfl

/-- Clearing the SUBSTITUTE bit really zeroes it, whatever else is set. -/
theorem and_cleared_substitute (v : Nat) :
    (v &&& (volatile_flags.ALL32 ^^^ volatile_flags.SUBSTITUTE)) &&&
      volatile_flags.SUBSTITUTE = 0 := by
  rw [Nat.and_assoc]
  have h : (volatile_flags.ALL32 ^^^ volatile_flags.SUBSTITUTE) &&&
      volatile_flags.SUBSTITUTE = 0 := by decide
  rw [h, Nat.and_zero]

/-- The effective accuracy computed by the source is never above 100. -/
theorem calc_effective_accuracy_le (b : Nat) (acc eva : Int) :
    Calc.calc_effective_accuracy b acc eva ≤ 100 := by
  simp only [Calc.calc_effective_accuracy]
  split_ifs <;> omega

-- ===========================================================================
-- C1: ModifyUserStat on a freshly-sent-in slot
-- ===========================================================================

/-- Claim C1: a freshly-sent-in slot stores every stage as 6 (the neutral
encoding documented in slot.hpp), but ModifyUserStat clamps the incremented
stage into the signed range [-6, +6]; so from the fresh value 6 a Swords
Dance (+2), and likewise a +1 boost, clamps 8 (resp. 7) back to 6, sees no
change, sets result.failed and leaves the stage where it was: the attack
stage stays at effective value 0 instead of moving to +2.  This evaluates
the code at the failing input of the recorded code bug. -/
theorem modify_user_stat_fails_on_fresh_slot :
    (ops.ModifyUserStat .ATK 2 {}).result.failed = true ∧
    (ops.ModifyUserStat .ATK 2 {}).attacker_slot.atk_stage = 6 ∧
    (ops.ModifyUserStat .ATK 1 {}).result.failed = true ∧
    (ops.ModifyUserStat .ATK 1 {}).attacker_slot.atk_stage = 6 ∧
    SlotState.effective_stage {} (ops.ModifyUserStat .ATK 2 {}).attacker_slot.atk_stage
      = 0 ∧
    ({} : SlotState).atk_stage = 6 := by
  decide

-- ===========================================================================
-- C2: ResetAllStats (Haze)
-- ===========================================================================

/-- Claim C2: ResetAllStats writes the literal value 0 into all seven stage
fields of both active slots; but under the storage convention of slot.hpp
and the ratio table of stat_stages.hpp the stored value 0 is stage -6 with
multiplier 0.25x, not the neutral 1.0x stage (stored 6).  The conjuncts
evaluate the op at the failing input from the spec scenario (attacker at
+3, defender at -2) and exhibit the divergence: every stored stage becomes
0, and the calc layer then quarters a stat at stage 0 (100 becomes 25)
because stored 0 decodes to effective -6. -/
theorem reset_all_stats_writes_zero_not_neutral :
    (ops.ResetAllStats
        { attacker_slot := { atk_stage := 9 }, defender_slot := { def_stage := 4 } }
      |>.attacker_slot.atk_stage) = 0 ∧
    (ops.ResetAllStats
        { attacker_slot := { atk_stage := 9 }, defender_slot := { def_stage := 4 } }
      |>.attacker_slot) =
      ({ atk_stage := 0, def_stage := 0, spd_stage := 0, sp_atk_stage := 0,
         sp_def_stage := 0, accuracy_stage := 0, evasion_stage := 0 } : SlotState) ∧
    (ops.ResetAllStats
        { attacker_slot := { atk_stage := 9 }, defender_slot := { def_stage := 4 } }
      |>.defender_slot) =
      ({ atk_stage := 0, def_stage := 0, spd_stage := 0, sp_atk_stage := 0,
         sp_def_stage := 0, accuracy_stage := 0, evasion_stage := 0 } : SlotState) ∧
    Calc.apply_stat_stage 100 0 = 25 ∧
    Calc.apply_stat_stage 100 6 = 100 ∧
    SlotState.effective_stage {} 0 = -6 := by
  decide

-- ===========================================================================
-- C3: BattleEngine::result
-- ===========================================================================

/-- Claim C3 counterexample: with both mons fainted the source returns
P2_WINS (the p1-fainted test fires first), not ONGOING as the claim
states. -/
theorem result_both_fainted_is_p2_wins :
    engine.Engine.result
        { p1_mon := { current_hp := 0, max_hp := 100 },
          p2_mon := { current_hp := 0, max_hp := 100 } } = .P2_WINS ∧
    BattleResult.P2_WINS ≠ BattleResult.ONGOING := by
  decide

/-- Claim C3 as amended: result() returns P2_WINS exactly when mon-0 is
fainted (whatever the state of mon-1), P1_WINS exactly when mon-0 is alive
and mon-1 fainted, and ONGOING exactly when both are alive; in particular
a double faint is reported as P2_WINS. -/
theorem result_cases (e : engine.Engine) :
    (e.result = .P2_WINS ↔ e.p1_mon.current_hp = 0) ∧
    (e.result = .P1_WINS ↔ e.p1_mon.current_hp ≠ 0 ∧ e.p2_mon.current_hp = 0) ∧
    (e.result = .ONGOING ↔ e.p1_mon.current_hp ≠ 0 ∧ e.p2_mon.current_hp ≠ 0) := by
  by_cases h1 : e.p1_mon.current_hp = 0 <;> by_cases h2 : e.p2_mon.current_hp = 0 <;>
    simp [engine.Engine.result, MonState.is_fainted, h1, h2]

-- ===========================================================================
-- C5: action priority of SWITCH
-- ===========================================================================

/-- Claim C5 counterexample: get_action_priority returns 0 for a SWITCH
action, not 6, and 0 is not strictly greater than the priority of a
positive-priority move such as a +1 Quick Attack. -/
theorem switch_priority_is_not_six :
    engine.Engine.get_action_priority (fun _ => { priority := 1 }) {}
        { type := .SWITCH, index := 0 } 0 = 0 ∧
    (0 : Int) ≠ 6 ∧
    ¬ ((0 : Int) > ({ priority := 1 } : Move).priority) := by
  decide

/-- Claim C5 as amended: a SWITCH action is assigned priority 0 (the
source comment calls this a simplification), which sits inside the move
priority range -7..+5 rather than above it; consequently a side using a
positive-priority move acts before a switching side. -/
theorem switch_priority_zero (mt : engine.MoveTable) (e : engine.Engine)
    (a : BattleAction) (s : Nat) (p : Int) (sp1 sp2 : Nat)
    (ha : a.type = .SWITCH) (hp : 0 < p) :
    engine.Engine.get_action_priority mt e a s = 0 ∧
    Calc.determine_turn_order p 0 sp1 sp2 = .BATTLER1_FIRST := by
  constructor
  · simp [engine.Engine.get_action_priority, ha]
  · simp [Calc.determine_turn_order, hp.ne', hp]

/-- Witness for switch_priority_zero at a concrete input. -/
theorem switch_priority_zero_witness :
    (engine.Engine.get_action_priority (fun _ => {}) {}
        { type := .SWITCH, index := 0 } 0 = 0 ∧
     Calc.determine_turn_order 1 0 30 200 = .BATTLER1_FIRST) :=
  switch_priority_zero (fun _ => {}) {} { type := .SWITCH, index := 0 } 0 1 30 200
    rfl (by decide)

-- ===========================================================================
-- C7: SetWeather
-- ===========================================================================

/-- Claim C7: a fresh SetWeather<W> (weather currently not W) sets the
weather to W with a five-turn counter and does not touch the result (in
particular a previously-unset failed flag stays unset); when the weather
is already W it only sets result.failed, leaving the whole field record
(weather and counter included) unchanged. -/
theorem set_weather_fresh_and_repeat (ctx : Ctx) (W : Weather) :
    (ctx.field.weather ≠ W →
      (ops.SetWeather W ctx).field.weather = W ∧
      (ops.SetWeather W ctx).field.weather_turns = 5 ∧
      (ops.SetWeather W ctx).result = ctx.result ∧
      (ctx.result.failed = false → (ops.SetWeather W ctx).result.failed = false)) ∧
    (ctx.field.weather = W →
      (ops.SetWeather W ctx).result.failed = true ∧
      (ops.SetWeather W ctx).field = ctx.field) := by
  constructor <;> intro h <;> simp [ops.SetWeather, h]

/-- Witness for set_weather_fresh_and_repeat: the fresh branch at the
default context (weather NONE) and the repeat branch at a context whose
weather is already SANDSTORM. -/
theorem set_weather_witness :
    ((ops.SetWeather .SANDSTORM {}).field.weather = .SANDSTORM ∧
     (ops.SetWeather .SANDSTORM {}).field.weather_turns = 5 ∧
     (ops.SetWeather .SANDSTORM {}).result = ({} : Ctx).result ∧
     (({} : Ctx).result.failed = false →
       (ops.SetWeather .SANDSTORM {}).result.failed = false)) ∧
    ((ops.SetWeather .SANDSTORM
        { field := { weather := .SANDSTORM, weather_turns := 3 } }).result.failed
          = true ∧
     (ops.SetWeather .SANDSTORM
        { field := { weather := .SANDSTORM, weather_turns := 3 } }).field =
       ({ field := { weather := .SANDSTORM, weather_turns := 3 } } : Ctx).field) :=
  ⟨(set_weather_fresh_and_repeat {} .SANDSTORM).1 (by decide),
   (set_weather_fresh_and_repeat
      { field := { weather := .SANDSTORM, weather_turns := 3 } } .SANDSTORM).2 rfl⟩

-- ===========================================================================
-- C4: chance-gated secondary effects
-- ===========================================================================

/-- Claim C4 counterexample: with the pending RNG draw 99 (a draw any 30
percent roll would fail, since 99 mod 100 is not below 30), TryApplyPoison
with chance 30 still poisons the fresh defender and consumes no draw at
all: the source applies the effect unconditionally whenever chance is
positive. -/
theorem try_apply_poison_ignores_roll :
    (ops.TryApplyStatus .POISON 30 {} [99]).1.defender_mon.status = .POISON ∧
    (ops.TryApplyStatus .POISON 30 {} [99]).1.result.status_applied = true ∧
    (ops.TryApplyStatus .POISON 30 {} [99]).2 = [99] ∧
    ¬ (99 % 100 < 30) := by
  decide

/-- Claim C4 as amended: the chance parameter only gates on being
non-zero.  TryApplyStatus<S>(chance) statuses an unstatused, non-missed
defender with certainty whenever chance > 0 (the roll is an unimplemented
TODO) and consumes no RNG; TryModifyDefenderStat<S, d>(chance) likewise
always applies the clamped stage change when chance is non-zero and the
move did not miss, consuming no RNG. -/
theorem try_secondary_effects_unconditional
    (S : Status) (St : Stat) (d : Int) (chance : Nat) (ctx : Ctx) (r : Rng)
    (hmiss : ctx.result.missed = false)
    (hstat : ctx.defender_mon.has_status = false)
    (hch : 0 < chance) :
    ((ops.TryApplyStatus S chance ctx r).1.defender_mon.status = S ∧
     (ops.TryApplyStatus S chance ctx r).1.result.status_applied = true ∧
     (ops.TryApplyStatus S chance ctx r).2 = r) ∧
    (ops.get_stage (ops.TryModifyDefenderStat St d chance ctx r).1.defender_slot St
        = max (-6) (min 6 (ops.get_stage ctx.defender_slot St + d)) ∧
     (ops.TryModifyDefenderStat St d chance ctx r).2 = r) := by
  have hch' : chance ≠ 0 := hch.ne'
  constructor
  · by_cases hS : S = Status.SLEEP <;>
      simp [ops.TryApplyStatus, hmiss, hstat, hch, hS]
  · constructor
    · simp only [ops.TryModifyDefenderStat, hmiss, hch', if_neg, Bool.false_eq_true,
        ite_false, get_stage_set_stage]
      split_ifs <;> omega
    · simp [ops.TryModifyDefenderStat, hmiss, hch']

/-- Witness for try_secondary_effects_unconditional at POISON / ATK-drop
with chance 30 on the default context. -/
theorem try_secondary_effects_witness :
    (({} : Ctx).result.missed = false ∧
     ({} : Ctx).defender_mon.has_status = false ∧ (0 : Nat) < 30) ∧
    (((ops.TryApplyStatus .POISON 30 {} [7]).1.defender_mon.status = .POISON ∧
      (ops.TryApplyStatus .POISON 30 {} [7]).1.result.status_applied = true ∧
      (ops.TryApplyStatus .POISON 30 {} [7]).2 = [7]) ∧
     (ops.get_stage (ops.TryModifyDefenderStat .ATK (-1) 30 {} [7]).1.defender_slot .ATK
        = max (-6) (min 6 (ops.get_stage ({} : Ctx).defender_slot .ATK + (-1))) ∧
      (ops.TryModifyDefenderStat .ATK (-1) 30 {} [7]).2 = [7])) :=
  ⟨⟨rfl, rfl, by decide⟩,
   try_secondary_effects_unconditional .POISON .ATK (-1) 30 {} [7] rfl rfl (by decide)⟩

-- ===========================================================================
-- C8: effective accuracy and the accuracy check
-- ===========================================================================

/-- Accuracy-stage numerators written from the words of the spec (section
4.1: stages at plus-minus 6/3 fractions, -6 is 3/9, 0 is 3/3, +6 is
9/3). -/
def spec_acc_numerators : List Nat := [3, 3, 3, 3, 3, 3, 3, 4, 5, 6, 7, 8, 9]

/-- Accuracy-stage denominators written from the words of the spec. -/
def spec_acc_denominators : List Nat := [9, 8, 7, 6, 5, 4, 3, 3, 3, 3, 3, 3, 3]

/-- Specification-side effective accuracy, written from the words of the
spec and of claim C8: base times acc_num over acc_den times eva_den over
eva_num, evaluated left to right in integer arithmetic and clamped so it
never exceeds 100. -/
def spec_effective_accuracy (base_accuracy : Nat) (acc_stage eva_stage : Int) : Nat :=
  let ai := (acc_stage + 6).toNat
  let ei := (eva_stage + 6).toNat
  min (base_accuracy * spec_acc_numerators.getD ai 3 / spec_acc_denominators.getD ai 3
        * spec_acc_denominators.getD ei 3 / spec_acc_numerators.getD ei 3) 100

/-- Exhaustive check that the embedded accuracy kernel agrees with the
specification formula on the whole claimed domain. -/
theorem accuracy_agrees_with_spec_aux :
    ∀ b : Fin 101, ∀ ai : Fin 13, ∀ ei : Fin 13, 1 ≤ b.val →
      Calc.calc_effective_accuracy b.val ((ai.val : Int) - 6) ((ei.val : Int) - 6)
        = spec_effective_accuracy b.val ((ai.val : Int) - 6) ((ei.val : Int) - 6) := by
  decide

/-- Claim C8 counterexample: at base accuracy 1 the effective accuracy at
acc +6 and eva -6 is 9, not the claimed saturated 100 (9 times 1 never
reaches the clamp). -/
theorem accuracy_not_saturated_at_low_base :
    Calc.calc_effective_accuracy 1 6 (-6) = 9 ∧ (9 : Nat) ≠ 100 := by
  decide

/-- Claim C8 as amended: for base accuracy b in 1..100 and stages in
[-6, +6] the effective accuracy equals the spec formula (clamped at 100);
base accuracy 0 always hits without consuming RNG; otherwise exactly one
uniform draw in [0, 100) is consumed and the hit is decided by comparing
the draw with the effective accuracy; and the clamp saturates to 100 at
acc +6, eva -6 exactly when the unclamped value 9 times b reaches 100,
that is for every b at least 12. -/
theorem accuracy_pipeline (b ai ei : Nat) (r : Rng)
    (hb : b ≤ 100) (hb1 : 1 ≤ b) (hai : ai ≤ 12) (hei : ei ≤ 12) :
    Calc.calc_effective_accuracy b ((ai : Int) - 6) ((ei : Int) - 6)
      = spec_effective_accuracy b ((ai : Int) - 6) ((ei : Int) - 6) ∧
    Calc.check_accuracy 0 ((ai : Int) - 6) ((ei : Int) - 6) r = (true, r) ∧
    Calc.check_accuracy b ((ai : Int) - 6) ((ei : Int) - 6) r =
      (decide (r.headD 0 % 100 <
        Calc.calc_effective_accuracy b ((ai : Int) - 6) ((ei : Int) - 6)), r.tail) ∧
    (12 ≤ b → Calc.calc_effective_accuracy b 6 (-6) = 100) := by
  refine ⟨?_, rfl, ?_, ?_⟩
  · exact accuracy_agrees_with_spec_aux ⟨b, by omega⟩ ⟨ai, by omega⟩ ⟨ei, by omega⟩ hb1
  · have hbne : b ≠ 0 := by omega
    simp only [Calc.check_accuracy, if_neg hbne, Calc.roll_accuracy, Random]
    by_cases h100 :
        100 ≤ Calc.calc_effective_accuracy b ((ai : Int) - 6) ((ei : Int) - 6)
    · have heq : Calc.calc_effective_accuracy b ((ai : Int) - 6) ((ei : Int) - 6) = 100 :=
        le_antisymm (calc_effective_accuracy_le b _ _) h100
      cases r with
      | nil => simp [ge_iff_le, h100, heq]
      | cons a t =>
        have hlt : a % 100 < 100 := Nat.mod_lt _ (by norm_num)
        simp [ge_iff_le, h100, heq, hlt]
    · simp [ge_iff_le, h100]
  · intro h12
    have hbne : b ≠ 0 := by omega
    have hn6 : Calc.ACC_STAGE_NUMERATORS.getD (Calc.acc_stage_to_index 6) 3 = 9 := by
      decide
    have hd6 : Calc.ACC_STAGE_DENOMINATORS.getD (Calc.acc_stage_to_index 6) 3 = 3 := by
      decide
    have hnm6 : Calc.ACC_STAGE_NUMERATORS.getD (Calc.acc_stage_to_index (-6)) 3 = 3 := by
      decide
    have hdm6 : Calc.ACC_STAGE_DENOMINATORS.getD (Calc.acc_stage_to_index (-6)) 3 = 9 := by
      decide
    simp only [Calc.calc_effective_accuracy, if_neg hbne, hn6, hd6, hnm6, hdm6]
    norm_num
    omega

/-- Witness for accuracy_pipeline at base accuracy 100, acc stage +6, eva
stage -6, with one pending draw 55. -/
theorem accuracy_pipeline_witness :
    ((100 : Nat) ≤ 100 ∧ (1 : Nat) ≤ 100 ∧ (12 : Nat) ≤ 12 ∧ (0 : Nat) ≤ 12) ∧
    (Calc.calc_effective_accuracy 100 ((12 : Int) - 6) ((0 : Int) - 6)
      = spec_effective_accuracy 100 ((12 : Int) - 6) ((0 : Int) - 6) ∧
    Calc.check_accuracy 0 ((12 : Int) - 6) ((0 : Int) - 6) [55] = (true, [55]) ∧
    Calc.check_accuracy 100 ((12 : Int) - 6) ((0 : Int) - 6) [55] =
      (decide (([55] : Rng).headD 0 % 100 <
        Calc.calc_effective_accuracy 100 ((12 : Int) - 6) ((0 : Int) - 6)), ([55] : Rng).tail) ∧
    (12 ≤ 100 → Calc.calc_effective_accuracy 100 6 (-6) = 100)) :=
  ⟨⟨by decide, by decide, by decide, by decide⟩,
   accuracy_pipeline 100 12 0 [55] (by decide) (by decide) (by decide) (by decide)⟩

-- ===========================================================================
-- C9: ApplyDamage behind a substitute
-- ===========================================================================

/-- Claim C9: whenever ApplyDamage runs while the defender substitute_hp
is positive, the defender mon hp (indeed the whole mon record) is
untouched and the pre-damage-apply item hook point (Focus Band) is never
reached; and if the move connected and the incoming damage covers the
substitute, the substitute_hp drops to 0, the SUBSTITUTE volatile is
cleared, and the excess is discarded rather than carried to the mon. -/
theorem apply_damage_substitute_shields (ctx : Ctx) (r : Rng)
    (hsub : 0 < ctx.defender_slot.substitute_hp) :
    (ops.ApplyDamage ctx r).1.defender_mon = ctx.defender_mon ∧
    (ops.ApplyDamage ctx r).2.2 = false ∧
    (ctx.result.missed = false →
      ctx.defender_slot.substitute_hp ≤ ctx.result.damage →
      (ops.ApplyDamage ctx r).1.defender_slot.substitute_hp = 0 ∧
      (ops.ApplyDamage ctx r).1.defender_slot.has volatile_flags.SUBSTITUTE = false) := by
  cases hm : ctx.result.missed
  · by_cases hd : ctx.result.damage = 0
    · refine ⟨by simp [ops.ApplyDamage, hm, hd], by simp [ops.ApplyDamage, hm, hd], ?_⟩
      intro _ hle
      omega
    · have hhs : ctx.defender_has_substitute = true := by
        simp [Ctx.defender_has_substitute, hsub]
      by_cases hge : ctx.result.damage ≥ ctx.defender_slot.substitute_hp
      · refine ⟨?_, ?_, ?_⟩
        · simp [ops.ApplyDamage, hm, hd, hhs, hge]
        · simp [ops.ApplyDamage, hm, hd, hhs, hge]
        · intro _ _
          constructor
          · simp [ops.ApplyDamage, hm, hd, hhs, hge, SlotState.clear]
          · simp [ops.ApplyDamage, hm, hd, hhs, hge, SlotState.clear, SlotState.has,
              and_cleared_substitute]
      · refine ⟨?_, ?_, ?_⟩
        · simp [ops.ApplyDamage, hm, hd, hhs, hge]
        · simp [ops.ApplyDamage, hm, hd, hhs, hge]
        · intro _ hle
          omega
  · refine ⟨by simp [ops.ApplyDamage, hm], by simp [ops.ApplyDamage, hm], ?_⟩
    intro hmiss
    simp [hm] at hmiss

/-- Witness for apply_damage_substitute_shields: a 25-damage hit into a
10-hp substitute on an 80-hp defender. -/
theorem apply_damage_substitute_witness :
    (0 : Nat) <
      ({ defender_slot := { substitute_hp := 10, volatiles := 8 },
         defender_mon := { current_hp := 80, max_hp := 80 },
         result := { damage := 25 } } : Ctx).defender_slot.substitute_hp ∧
    ((ops.ApplyDamage
        { defender_slot := { substitute_hp := 10, volatiles := 8 },
          defender_mon := { current_hp := 80, max_hp := 80 },
          result := { damage := 25 } } [3]).1.defender_mon =
      ({ defender_slot := { substitute_hp := 10, volatiles := 8 },
         defender_mon := { current_hp := 80, max_hp := 80 },
         result := { damage := 25 } } : Ctx).defender_mon ∧
     (ops.ApplyDamage
        { defender_slot := { substitute_hp := 10, volatiles := 8 },
          defender_mon := { current_hp := 80, max_hp := 80 },
          result := { damage := 25 } } [3]).2.2 = false ∧
     (({ defender_slot := { substitute_hp := 10, volatiles := 8 },
         defender_mon := { current_hp := 80, max_hp := 80 },
         result := { damage := 25 } } : Ctx).result.missed = false →
      ({ defender_slot := { substitute_hp := 10, volatiles := 8 },
         defender_mon := { current_hp := 80, max_hp := 80 },
         result := { damage := 25 } } : Ctx).defender_slot.substitute_hp ≤
        ({ defender_slot := { substitute_hp := 10, volatiles := 8 },
           defender_mon := { current_hp := 80, max_hp := 80 },
           result := { damage := 25 } } : Ctx).result.damage →
      (ops.ApplyDamage
          { defender_slot := { substitute_hp := 10, volatiles := 8 },
            defender_mon := { current_hp := 80, max_hp := 80 },
            result := { damage := 25 } } [3]).1.defender_slot.substitute_hp = 0 ∧
      (ops.ApplyDamage
          { defender_slot := { substitute_hp := 10, volatiles := 8 },
            defender_mon := { current_hp := 80, max_hp := 80 },
            result := { damage := 25 } } [3]).1.defender_slot.has
        volatile_flags.SUBSTITUTE = false)) :=
  ⟨by decide,
   apply_damage_substitute_shields
     { defender_slot := { substitute_hp := 10, volatiles := 8 },
       defender_mon := { current_hp := 80, max_hp := 80 },
       result := { damage := 25 } } [3] (by decide)⟩

-- ===========================================================================
-- C10: quick claw on both sides
-- ===========================================================================

/-- Claim C10: when both quick-claw flags are raised in the same turn,
determine_order behaves exactly as when neither is raised (the first
equality holds for every action pair, hence in particular within one
priority bracket): the ordering falls through to the ordinary comparison,
so with equal action priorities the strictly faster side goes first
without any RNG use and an exact speed tie is settled by a single
Random(2) coin flip. -/
theorem quick_claw_both_ignored (mt : engine.MoveTable) (e : engine.Engine)
    (a1 a2 : BattleAction) (r : Rng) (s1 s2 : Nat)
    (hs1 : s1 = Calc.calc_effective_speed e.p1_active.speed e.p1_slot.spd_stage
      e.p1_mon.status)
    (hs2 : s2 = Calc.calc_effective_speed e.p2_active.speed e.p2_slot.spd_stage
      e.p2_mon.status) :
    engine.Engine.determine_order mt e a1 a2 true true r =
      engine.Engine.determine_order mt e a1 a2 false false r ∧
    (engine.Engine.get_action_priority mt e a1 0 =
        engine.Engine.get_action_priority mt e a2 1 →
      (s2 < s1 → engine.Engine.determine_order mt e a1 a2 true true r =
        { first_slot := 0, second_slot := 1, first_action := a1,
          second_action := a2, rng := r }) ∧
      (s1 < s2 → engine.Engine.determine_order mt e a1 a2 true true r =
        { first_slot := 1, second_slot := 0, first_action := a2,
          second_action := a1, rng := r }) ∧
      (s1 = s2 → engine.Engine.determine_order mt e a1 a2 true true r =
        if r.headD 0 % 2 = 0 then
          { first_slot := 0, second_slot := 1, first_action := a1,
            second_action := a2, rng := r.tail }
        else
          { first_slot := 1, second_slot := 0, first_action := a2,
            second_action := a1, rng := r.tail })) := by
  subst hs1 hs2
  refine ⟨rfl, fun hp => ⟨?_, ?_, ?_⟩⟩
  · intro h
    have h' : ¬ (Calc.calc_effective_speed e.p2_active.speed e.p2_slot.spd_stage
        e.p2_mon.status > Calc.calc_effective_speed e.p1_active.speed
        e.p1_slot.spd_stage e.p1_mon.status) := by omega
    simp [engine.Engine.determine_order, Calc.determine_turn_order, hp, h, h']
  · intro h
    have h' : ¬ (Calc.calc_effective_speed e.p1_active.speed e.p1_slot.spd_stage
        e.p1_mon.status > Calc.calc_effective_speed e.p2_active.speed
        e.p2_slot.spd_stage e.p2_mon.status) := by omega
    simp [engine.Engine.determine_order, Calc.determine_turn_order, hp, h, h']
  · intro h
    by_cases hr : r.headD 0 % 2 = 0 <;>
      simp [engine.Engine.determine_order, Calc.determine_turn_order, hp, h,
        Random, hr]

/-- Witness for quick_claw_both_ignored at the default engine (an exact
100 to 100 speed tie) with one pending draw 1, which makes battler 2 move
first in both the both-quick-claw and the no-quick-claw worlds. -/
theorem quick_claw_both_ignored_witness :
    ((100 : Nat) = Calc.calc_effective_speed ({} : engine.Engine).p1_active.speed
        ({} : engine.Engine).p1_slot.spd_stage ({} : engine.Engine).p1_mon.status) ∧
    (engine.Engine.determine_order (fun _ => {}) {} {} {} true true [1] =
      engine.Engine.determine_order (fun _ => {}) {} {} {} false false [1] ∧
    (engine.Engine.get_action_priority (fun _ => {}) {} {} 0 =
        engine.Engine.get_action_priority (fun _ => {}) {} {} 1 →
      ((100 : Nat) < 100 → engine.Engine.determine_order (fun _ => {}) {} {} {} true true [1] =
        { first_slot := 0, second_slot := 1, first_action := {},
          second_action := {}, rng := [1] }) ∧
      ((100 : Nat) < 100 → engine.Engine.determine_order (fun _ => {}) {} {} {} true true [1] =
        { first_slot := 1, second_slot := 0, first_action := {},
          second_action := {}, rng := [1] }) ∧
      ((100 : Nat) = 100 → engine.Engine.determine_order (fun _ => {}) {} {} {} true true [1] =
        if ([1] : Rng).headD 0 % 2 = 0 then
          { first_slot := 0, second_slot := 1, first_action := {},
            second_action := {}, rng := ([1] : Rng).tail }
        else
          { first_slot := 1, second_slot := 0, first_action := {},
            second_action := {}, rng := ([1] : Rng).tail }))) :=
  ⟨by decide,
   quick_claw_both_ignored (fun _ => {}) {} {} {} [1] 100 100 (by decide) (by decide)⟩

-- ===========================================================================
-- C6: dispatch of the second action within a turn
-- ===========================================================================

/-- Move table for the C6 run: every id maps to a status move whose effect
field carries the BATON_PASS tag (represented by its numeric value; the
dispatcher below interprets it). -/
def baton_pass_move_table : engine.MoveTable :=
  fun _ => { accuracy := 100, priority := 0, effect := 228 }

/-- Dispatcher for the C6 run.  The source routine for the BATON_PASS tag
is routines::BatonPass (src/unnamed/part_004), a single RequestBatonPass
op, wired in dispatch_move_effect (src/unnamed/part_001).  Both actions of
the run below select a move carrying that tag, so on every tag this table
is actually queried at it agrees with the source dispatcher. -/
def baton_pass_dispatch : engine.Dispatch :=
  fun _ ctx r => (ops.RequestBatonPass ctx, r)

/-- Engine fixture for the C6 run: two healthy mons, p1 strictly faster,
no held items. -/
def c6_engine : engine.Engine :=
  { p1_mon := { current_hp := 100, max_hp := 100 },
    p2_mon := { current_hp := 100, max_hp := 100 },
    p1_active := { speed := 100 }, p2_active := { speed := 50 }, rng := [] }

/-- Claim C6 counterexample: p1 (acting first) uses Baton Pass, so the
first action resolves with result.switch_out set and the second actor mon
has not fainted; the source nevertheless dispatches the second action (the
p2 slot is marked as having moved), because execute_turn only guards on
the faint of the second actor and never consults switch_out. -/
theorem second_action_runs_despite_switch_out :
    (engine.Engine.execute_turn baton_pass_move_table baton_pass_dispatch
      c6_engine {} {}).first_slot = 0 ∧
    (engine.Engine.execute_turn baton_pass_move_table baton_pass_dispatch
      c6_engine {} {}).first_result.switch_out = true ∧
    (engine.Engine.execute_turn baton_pass_move_table baton_pass_dispatch
      c6_engine {} {}).second_dispatched = true ∧
    (engine.Engine.execute_turn baton_pass_move_table baton_pass_dispatch
      c6_engine {} {}).eng.p2_slot.moved_this_turn = true := by
  decide

/-- Claim C6 as amended: in every execution of execute_turn (any move
table, any dispatcher, any starting state and action pair) the second
action is dispatched exactly when the second actor mon is still alive
after the first action resolves; the first action result (switch_out
included) is never consulted. -/
theorem second_action_skip_rule (mt : engine.MoveTable) (d : engine.Dispatch)
    (e : engine.Engine) (a1 a2 : BattleAction) :
    (engine.Engine.execute_turn mt d e a1 a2).second_dispatched =
      !(engine.Engine.get_mon (engine.Engine.turn_after_first mt d e a1 a2).1
          (engine.Engine.turn_after_first mt d e a1 a2).2.2.1).is_fainted ∧
    ((engine.Engine.execute_turn mt d e a1 a2).second_dispatched = true ↔
      (engine.Engine.get_mon (engine.Engine.turn_after_first mt d e a1 a2).1
          (engine.Engine.turn_after_first mt d e a1 a2).2.2.1).current_hp ≠ 0) := by
  refine ⟨rfl, ?_⟩
  show (!(engine.Engine.get_mon (engine.Engine.turn_after_first mt d e a1 a2).1
      (engine.Engine.turn_after_first mt d e a1 a2).2.2.1).is_fainted) = true ↔ _
  simp [MonState.is_fainted]

end Battlemon
